import Mathlib

/-!
Verification development for the InsurTrack insurance-policy web application.

The definitions below are a shallow embedding of the repository's code:
the scheduled `send-emi-reminders` edge function, the `create-agent` and
`onboard-client` provisioning edge functions, the AddPolicy form validation,
the Dashboard premium-payment logic, the `useUserRole` hook, and the
`handle_new_user` database trigger together with the relevant schema
constraints from the SQL migrations.  Database rows are lists of records,
the numeric columns (whole rupee amounts, rates, days) are integers,
nullable columns are options, and fallible
external calls (auth lookup, role rpc, user creation, email delivery) are
oracles passed in as parameters.  Generated primary keys that the code never
inspects are modelled as opaque strings supplied by the environment.
-/

namespace InsurTrack

/-! ### Calendar arithmetic

`send-emi-reminders` computes tomorrow's day-of-month with
`tomorrow.setDate(tomorrow.getDate() + 1); tomorrow.getDate()`, which rolls
over month and year boundaries.  `nextDay` models that on proper dates. -/

def isLeapYear (y : Int) : Bool :=
  (y % 4 == 0 && y % 100 != 0) || (y % 400 == 0)

def daysInMonth (y : Int) (m : Nat) : Nat :=
  if m == 2 then (if isLeapYear y then 29 else 28)
  else if m == 4 || m == 6 || m == 9 || m == 11 then 30
  else 31

structure Date where
  year : Int
  month : Nat
  day : Nat
deriving Repr, DecidableEq

def nextDay (d : Date) : Date :=
  if d.day < daysInMonth d.year d.month then ⟨d.year, d.month, d.day + 1⟩
  else if d.month < 12 then ⟨d.year, d.month + 1, 1⟩
  else ⟨d.year + 1, 1, 1⟩

def tomorrowDay (d : Date) : Nat := (nextDay d).day

/-! ### The insurance_policies table

Columns as created by the migrations (with `monthly_emi` and `emi_date`
added later); `coverage_amount`, `premium_amount`, `monthly_emi` are
nullable numerics, `emi_date` a nullable integer. -/

structure PolicyRow where
  id : String
  user_id : String
  policy_name : String
  policy_provider : String
  policy_number : String
  insurance_type : String
  policy_status : String
  coverage_amount : Option ℤ
  premium_amount : Option ℤ
  monthly_emi : Option ℤ
  emi_date : Option Int
  start_date : String
  end_date : String
  description : Option String
deriving Repr, DecidableEq

/-- The profile columns selected by the reminder function
(`select("email, full_name")`). -/
structure Profile where
  email : String
  full_name : String
deriving Repr, DecidableEq

/-! ### send-emi-reminders -/

/-- The policy query of `send-emi-reminders`:
`.eq("policy_status", "active").eq("emi_date", tomorrowDay)
.not("monthly_emi", "is", null)`. -/
def emiDueQuery (db : List PolicyRow) (day : Nat) : List PolicyRow :=
  db.filter (fun p =>
    p.policy_status == "active" && p.emi_date == some (day : Int) && p.monthly_emi.isSome)

/-- One step of the `policiesByUser` reduce: record a user id the first time
it is seen (javascript object keys are kept in insertion order). -/
def addUser (acc : List String) (p : PolicyRow) : List String :=
  if acc.contains p.user_id then acc else acc ++ [p.user_id]

def groupUserIds (ps : List PolicyRow) : List String := ps.foldl addUser []

/-- `policiesByUser`: the reduce groups the fetched policies by `user_id`;
each key maps to the policies pushed for it, in fetch order. -/
def policiesByUser (ps : List PolicyRow) : List (String × List PolicyRow) :=
  (groupUserIds ps).map (fun u => (u, ps.filter (fun p => p.user_id == u)))

/-- `Number(p.monthly_emi)` applied to a nullable numeric (null reads as 0). -/
def numVal (o : Option ℤ) : ℤ := o.getD 0

/-- `userPolicies.reduce((sum, p) => sum + Number(p.monthly_emi), 0)`. -/
def totalEMI (ps : List PolicyRow) : ℤ := ps.foldl (fun s p => s + numVal p.monthly_emi) 0

/-- The data of one reminder email as composed by the function: recipient,
the Total Amount Due figure, and the policies listed in the body. -/
structure ReminderEmail where
  userId : String
  toAddr : String
  totalDue : ℤ
  policyCount : Nat
  policyIds : List String
deriving Repr, DecidableEq

structure SendOutcome where
  emailsSent : Nat
  emailsFailed : Nat
  emails : List ReminderEmail
deriving Repr, DecidableEq

/-- The per-user loop: a missing profile counts a failure and continues;
otherwise the email is composed from the user's policies and sent, and a
send error (`sendOk` false) is caught and counted as a failure. -/
def processUsers (profiles : String → Option Profile) (sendOk : String → Bool) :
    List (String × List PolicyRow) → SendOutcome
  | [] => { emailsSent := 0, emailsFailed := 0, emails := [] }
  | (u, ups) :: rest =>
    let r := processUsers profiles sendOk rest
    match profiles u with
    | none => { r with emailsFailed := r.emailsFailed + 1 }
    | some pr =>
      if sendOk u then
        { emailsSent := r.emailsSent + 1, emailsFailed := r.emailsFailed,
          emails := { userId := u, toAddr := pr.email, totalDue := totalEMI ups,
                      policyCount := ups.length,
                      policyIds := ups.map (fun p => p.id) } :: r.emails }
      else { r with emailsFailed := r.emailsFailed + 1 }

/-- The two 200 response bodies of the function: the no-match body
(`message, count: 0`) and the processed body
(`policiesFound, emailsSent, emailsFailed, usersNotified`). -/
inductive RunResponse where
  | noReminders (count : Nat)
  | processed (policiesFound emailsSent emailsFailed usersNotified : Nat)
deriving Repr, DecidableEq

structure RunResult where
  status : Nat
  response : RunResponse
  emails : List ReminderEmail
deriving Repr, DecidableEq

/-- The `send-emi-reminders` handler on a run where the initial policy query
succeeds: select due policies, return count 0 if none, otherwise group by
user, loop sending emails, and answer 200 with the tallies. -/
def sendEmiReminders (db : List PolicyRow) (profiles : String → Option Profile)
    (sendOk : String → Bool) (runDate : Date) : RunResult :=
  let day := tomorrowDay runDate
  let policies := emiDueQuery db day
  if policies.isEmpty then
    { status := 200, response := .noReminders 0, emails := [] }
  else
    let out := processUsers profiles sendOk (policiesByUser policies)
    { status := 200,
      response := .processed policies.length out.emailsSent out.emailsFailed out.emailsSent,
      emails := out.emails }

/-! ### Database rows touched by the provisioning functions -/

structure ProfileRow where
  id : String
  email : String
  full_name : Option String
  age : Option Int
  gender : Option String
  date_of_birth : Option String
  onboarded_by_agent : Option String
deriving Repr, DecidableEq

structure RoleRow where
  user_id : String
  role : String
deriving Repr, DecidableEq

structure AgentRow where
  id : String
  user_id : String
  agent_code : String
  commission_rate : ℤ
deriving Repr, DecidableEq

structure AgentClientRow where
  agent_id : String
  client_id : String
deriving Repr, DecidableEq

/-- The database state the two provisioning functions read and write:
auth users plus the profiles, user_roles, agents and agent_clients tables. -/
structure DBState where
  auth_users : List String
  profiles : List ProfileRow
  user_roles : List RoleRow
  agents : List AgentRow
  agent_clients : List AgentClientRow
deriving Repr, DecidableEq

/-- `profiles` upsert of `create-agent` (columns id, email, full_name with
`onConflict: "id"`): on conflict only the given columns are updated. -/
def upsertAgentProfile (db : List ProfileRow) (uid email fullName : String) :
    List ProfileRow :=
  if db.any (fun r => r.id == uid) then
    db.map (fun r => if r.id == uid then
      { r with email := email, full_name := some fullName } else r)
  else db ++ [⟨uid, email, some fullName, none, none, none, none⟩]

/-- `profiles` upsert of `onboard-client` (all columns listed, including
`onboarded_by_agent`, with `onConflict: "id"`). -/
def upsertClientProfile (db : List ProfileRow) (row : ProfileRow) : List ProfileRow :=
  if db.any (fun r => r.id == row.id) then
    db.map (fun r => if r.id == row.id then row else r)
  else db ++ [row]

/-- `from("user_roles").delete().eq("user_id", uid)`. -/
def deleteRolesFor (db : List RoleRow) (uid : String) : List RoleRow :=
  db.filter (fun r => !(r.user_id == uid))

/-- External services both provisioning functions call, as oracles:
`auth.getUser` on the bearer token, the `has_role` rpc (`none` models an
rpc error), `auth.admin.createUser` (`none` models a creation error with
message `createErrorMsg`), success of each subsequent insert/upsert, and
the generated id of a fresh `agents` row. -/
structure ProvisionEnv where
  getUser : String → Option String
  hasRole : String → String → Option Bool
  createUserResult : Option String
  createErrorMsg : String
  profileUpsertOk : Bool
  roleInsertOk : Bool
  agentInsertOk : Bool
  assignInsertOk : Bool
  freshId : String

/-- Response bodies of the provisioning functions. -/
inductive Body where
  | errMsg (msg : String)
  | success
  | successOnboard (clientId : String) (agentCode : String) (message : String)
deriving Repr, DecidableEq

structure HandlerResult where
  status : Nat
  body : Body
  db : DBState
  createdUserId : Option String
  assignAttempted : Bool
deriving Repr, DecidableEq

structure CreateAgentReq where
  method : String
  token : String
  email : String
  password : String
  fullName : String
  agentCode : String
  commissionRate : Option ℤ
deriving Repr, DecidableEq

/-- The `create-agent` edge function: method check, token check, caller
lookup, `has_role(caller, admin)` check, required-field check, then
create the auth user, upsert the profile, replace the user's roles with
the single role `agent`, and insert the `agents` row with
`commission_rate: commissionRate ?? 10`. -/
def createAgent (env : ProvisionEnv) (db : DBState) (req : CreateAgentReq) :
    HandlerResult :=
  if req.method != "POST" then ⟨405, .errMsg "Method not allowed", db, none, false⟩
  else if req.token == "" then ⟨401, .errMsg "Unauthorized", db, none, false⟩
  else
    match env.getUser req.token with
    | none => ⟨401, .errMsg "Unauthorized", db, none, false⟩
    | some callerId =>
      match env.hasRole callerId "admin" with
      | none => ⟨403, .errMsg "Forbidden", db, none, false⟩
      | some false => ⟨403, .errMsg "Forbidden", db, none, false⟩
      | some true =>
        if req.email == "" || req.password == "" || req.fullName == "" ||
            req.agentCode == "" then
          ⟨400, .errMsg "Missing required fields", db, none, false⟩
        else
          match env.createUserResult with
          | none =>
            ⟨400, .errMsg (if env.createErrorMsg == "" then "Failed to create user"
                           else env.createErrorMsg), db, none, false⟩
          | some userId =>
            let db1 : DBState := { db with auth_users := db.auth_users ++ [userId] }
            if !env.profileUpsertOk then
              ⟨500, .errMsg "Failed to create agent profile", db1, some userId, false⟩
            else
              let db2 : DBState :=
                { db1 with profiles := upsertAgentProfile db1.profiles userId req.email req.fullName }
              let db3 : DBState :=
                { db2 with user_roles := deleteRolesFor db2.user_roles userId }
              if !env.roleInsertOk then
                ⟨500, .errMsg "Failed to set agent role", db3, some userId, false⟩
              else
                let db4 : DBState :=
                  { db3 with user_roles := db3.user_roles ++ [⟨userId, "agent"⟩] }
                if !env.agentInsertOk then
                  ⟨500, .errMsg "Failed to create agent record", db4, some userId, false⟩
                else
                  let db5 : DBState :=
                    { db4 with agents := db4.agents ++
                        [⟨env.freshId, userId, req.agentCode, req.commissionRate.getD 10⟩] }
                  ⟨200, .success, db5, some userId, false⟩

structure OnboardReq where
  method : String
  token : String
  email : String
  password : String
  fullName : String
  age : Option Int
  gender : Option String
  dateOfBirth : Option String
deriving Repr, DecidableEq

/-- The `onboard-client` edge function: method/token/caller checks,
`has_role(caller, agent)` check, agent-record lookup (`maybeSingle` on
`agents` by `user_id`), required-field check, then create the auth user,
upsert the profile with `onboarded_by_agent`, replace the new user's roles
with the single role `user`, and attempt the `agent_clients` assignment
(whose error is logged and ignored). -/
def onboardClient (env : ProvisionEnv) (db : DBState) (req : OnboardReq) :
    HandlerResult :=
  if req.method != "POST" then ⟨405, .errMsg "Method not allowed", db, none, false⟩
  else if req.token == "" then ⟨401, .errMsg "Unauthorized", db, none, false⟩
  else
    match env.getUser req.token with
    | none => ⟨401, .errMsg "Unauthorized", db, none, false⟩
    | some callerId =>
      match env.hasRole callerId "agent" with
      | none => ⟨403, .errMsg "Forbidden - Only agents can onboard clients", db, none, false⟩
      | some false => ⟨403, .errMsg "Forbidden - Only agents can onboard clients", db, none, false⟩
      | some true =>
        match db.agents.find? (fun a => a.user_id == callerId) with
        | none => ⟨404, .errMsg "Agent record not found", db, none, false⟩
        | some agentData =>
          if req.email == "" || req.password == "" || req.fullName == "" then
            ⟨400, .errMsg "Missing required fields (email, password, fullName)", db, none, false⟩
          else
            match env.createUserResult with
            | none =>
              ⟨400, .errMsg (if env.createErrorMsg == "" then "Failed to create user"
                             else env.createErrorMsg), db, none, false⟩
            | some userId =>
              let db1 : DBState := { db with auth_users := db.auth_users ++ [userId] }
              if !env.profileUpsertOk then
                ⟨500, .errMsg "Failed to create client profile", db1, some userId, false⟩
              else
                let newProfile : ProfileRow :=
                  ⟨userId, req.email, some req.fullName, req.age, req.gender,
                    req.dateOfBirth, some agentData.id⟩
                let db2 : DBState :=
                  { db1 with profiles := upsertClientProfile db1.profiles newProfile }
                let db3 : DBState :=
                  { db2 with user_roles := deleteRolesFor db2.user_roles userId }
                if !env.roleInsertOk then
                  ⟨500, .errMsg "Failed to set user role", db3, some userId, false⟩
                else
                  let db4 : DBState :=
                    { db3 with user_roles := db3.user_roles ++ [⟨userId, "user"⟩] }
                  let db5 : DBState :=
                    if env.assignInsertOk then
                      { db4 with agent_clients := db4.agent_clients ++ [⟨agentData.id, userId⟩] }
                    else db4
                  ⟨200, .successOnboard userId agentData.agent_code
                      ("Client created. They can login with email: " ++ req.email ++
                       " and the password you set, using agent code: " ++ agentData.agent_code),
                    db5, some userId, true⟩

/-! ### AddPolicy form validation

`dataToValidate` in `AddPolicy.handleSubmit`: string fields stay strings,
the numeric fields are parsed (`parseFloat` / `parseInt`, empty giving
`undefined` for the optional ones), and the zod schema is checked. -/

structure PolicyFormData where
  policy_name : String
  policy_provider : String
  policy_number : String
  insurance_type : String
  policy_status : String
  coverage_amount : ℤ
  premium_amount : ℤ
  monthly_emi : Option ℤ
  emi_date : Option Int
  start_date : String
  end_date : String
  description : String
deriving Repr, DecidableEq

/-- The zod `policySchema` of AddPolicy as a boolean check: string length
bounds, the two enums, non-negative amounts, optional `monthly_emi ≥ 0`,
optional `emi_date` between 1 and 31, non-empty dates, description at most
500 characters. -/
def policySchemaCheck (f : PolicyFormData) : Bool :=
  decide (2 ≤ f.policy_name.length) && decide (f.policy_name.length ≤ 100) &&
  decide (2 ≤ f.policy_provider.length) && decide (f.policy_provider.length ≤ 100) &&
  decide (3 ≤ f.policy_number.length) && decide (f.policy_number.length ≤ 50) &&
  (f.insurance_type == "life" || f.insurance_type == "health" ||
    f.insurance_type == "vehicle" || f.insurance_type == "house") &&
  (f.policy_status == "active" || f.policy_status == "pending" ||
    f.policy_status == "expired" || f.policy_status == "cancelled") &&
  decide (0 ≤ f.coverage_amount) && decide (0 ≤ f.premium_amount) &&
  (match f.monthly_emi with
   | none => true
   | some v => decide (0 ≤ v)) &&
  (match f.emi_date with
   | none => true
   | some d => decide (1 ≤ d) && decide (d ≤ 31)) &&
  decide (1 ≤ f.start_date.length) && decide (1 ≤ f.end_date.length) &&
  decide (f.description.length ≤ 500)

/-- The row passed to `supabase.from("insurance_policies").insert`. -/
structure PolicyInsert where
  user_id : String
  policy_name : String
  policy_provider : String
  policy_number : String
  insurance_type : String
  policy_status : String
  coverage_amount : ℤ
  premium_amount : ℤ
  monthly_emi : Option ℤ
  emi_date : Option Int
  start_date : String
  end_date : String
  description : Option String
deriving Repr, DecidableEq

inductive SubmitAction where
  | redirectAuth
  | validationError
  | insertPolicy (row : PolicyInsert)
deriving Repr, DecidableEq

/-- `AddPolicy.handleSubmit`: no user means a toast and a redirect to
`/auth`; a failed `policySchema.safeParse` means an error toast and no
insert; otherwise the insert is issued with the form's values
(`description: formData.description || null`). -/
def handleSubmitAddPolicy (user : Option String) (f : PolicyFormData) : SubmitAction :=
  match user with
  | none => .redirectAuth
  | some uid =>
    if policySchemaCheck f then
      .insertPolicy ⟨uid, f.policy_name, f.policy_provider, f.policy_number,
        f.insurance_type, f.policy_status, f.coverage_amount, f.premium_amount,
        f.monthly_emi, f.emi_date, f.start_date, f.end_date,
        if f.description == "" then none else some f.description⟩
    else .validationError

/-! ### premium_payments: schema constraints and Dashboard payment logic -/

structure PremiumPaymentRow where
  id : String
  policy_id : String
  user_id : String
  amount : ℤ
  payment_month : Int
  payment_year : Int
  payment_method : Option String
  transaction_id : Option String
deriving Repr, DecidableEq

/-- Every integrity constraint the `CREATE TABLE public.premium_payments`
migration declares: the primary key on `id` and the foreign key
`policy_id` referencing `insurance_policies(id)`.  (The three indexes it
creates are not unique and are not constraints.) -/
def premiumPaymentsConstraints (payments : List PremiumPaymentRow)
    (policies : List PolicyRow) : Prop :=
  (payments.map (fun r => r.id)).Nodup ∧
  ∀ r ∈ payments, ∃ p ∈ policies, p.id = r.policy_id

/-- At most one premium payment per (policy_id, payment_month,
payment_year): the invariant the application relies on. -/
def atMostOnePaymentPerMonthYear (payments : List PremiumPaymentRow) : Prop :=
  ∀ r ∈ payments, ∀ s ∈ payments,
    r.policy_id = s.policy_id → r.payment_month = s.payment_month →
      r.payment_year = s.payment_year → r = s

/-- The payment columns the Dashboard fetches
(`select("id, policy_id, payment_month, payment_year")`). -/
structure PaymentView where
  id : String
  policy_id : String
  payment_month : Int
  payment_year : Int
deriving Repr, DecidableEq

/-- `Dashboard.isPremiumPaidForMonth`. -/
def isPremiumPaidForMonth (payments : List PaymentView) (policyId : String)
    (month year : Int) : Bool :=
  payments.any (fun p =>
    p.policy_id == policyId && p.payment_month == month && p.payment_year == year)

structure PremiumPaymentInsert where
  policy_id : String
  user_id : String
  amount : Option ℤ
  payment_month : Int
  payment_year : Int
  payment_method : Option String
  transaction_id : Option String
deriving Repr, DecidableEq

inductive PayPremiumAction where
  | missingFields
  | alreadyPaid
  | insertPayment (row : PremiumPaymentInsert)
deriving Repr, DecidableEq

/-- Javascript `a || b` on a nullable numeric (null and 0 are falsy). -/
def jsOrNum (a b : Option ℤ) : Option ℤ :=
  match a with
  | some v => if v = 0 then b else some v
  | none => b

/-- `Dashboard.handlePayPremium`: missing policy, user, month or year is
an error toast; a payment already recorded for the (policy, month, year)
is refused with "Premium for this month is already paid"; otherwise the
insert is issued with `amount: monthly_emi || premium_amount`. -/
def handlePayPremium (selected : Option PolicyRow) (user : Option String)
    (paymentMonth paymentYear : Option Int) (payments : List PaymentView)
    (paymentMethod transactionId : Option String) : PayPremiumAction :=
  match selected, user, paymentMonth, paymentYear with
  | some pol, some uid, some month, some year =>
    if isPremiumPaidForMonth payments pol.id month year then .alreadyPaid
    else .insertPayment ⟨pol.id, uid, jsOrNum pol.monthly_emi pol.premium_amount,
      month, year, paymentMethod, transactionId⟩
  | _, _, _, _ => .missingFields

/-! ### useUserRole and the handle_new_user trigger -/

/-- The role the `useUserRole` hook holds once loading completes, as a
function of the authenticated user and of the `user_roles` query outcome
(`Except.error` models a query error or a thrown exception; `Except.ok
none` models `maybeSingle` finding no row).  The hook sets
`(data?.role) || 'user'`, so a missing row or an error defaults to
`user`. -/
def fetchRoleResult (user : Option String) (query : Except Unit (Option String)) :
    Option String :=
  match user with
  | none => none
  | some _ =>
    match query with
    | .error _ => some "user"
    | .ok none => some "user"
    | .ok (some r) => some (if r == "" then "user" else r)

/-- `isAdmin: role === 'admin'`. -/
def roleIsAdmin (r : Option String) : Bool := r == some "admin"

/-- `isAgent: role === 'agent'`. -/
def roleIsAgent (r : Option String) : Bool := r == some "agent"

/-- A row of `auth.users` as seen by the trigger (`NEW.id`, `NEW.email`,
`NEW.raw_user_meta_data->>'full_name'`). -/
structure NewUser where
  id : String
  email : String
  full_name : Option String
deriving Repr, DecidableEq

/-- The tables the `handle_new_user` trigger and `insert_seed_policies`
touch. -/
structure TriggerDB where
  profiles : List ProfileRow
  user_roles : List RoleRow
  insurance_policies : List PolicyRow
deriving Repr, DecidableEq

/-- The final `insert_seed_policies`: two fixed policies (life with
`emi_date` 5, house with `emi_date` 10) for the target user.  Generated
ids are modelled as empty strings and the CURRENT_DATE-derived dates are
passed in. -/
def insert_seed_policies (db : TriggerDB) (targetUserId : String)
    (today endLife endHouse : String) : TriggerDB :=
  { db with insurance_policies := db.insurance_policies ++
      [⟨"", targetUserId, "Life Protection Plus", "LIC India", "LIC-2024-001",
        "life", "active", some 1000000, some 5000, some 5000, some 5,
        today, endLife, some "Comprehensive life insurance coverage for family protection"⟩,
       ⟨"", targetUserId, "Home Shield Pro", "HDFC ERGO", "HOME-2024-001",
        "house", "active", some 1000000, some 5000, some 5000, some 10,
        today, endHouse, some "Complete home insurance with fire, theft, and natural disaster coverage"⟩] }

/-- The final `handle_new_user` trigger function: insert the profile row
for the new auth user, add the seed policies when the email is the test
user's, and return.  It writes no `user_roles` row. -/
def handle_new_user (db : TriggerDB) (u : NewUser) (today endLife endHouse : String) :
    TriggerDB :=
  let db1 : TriggerDB :=
    { db with profiles := db.profiles ++
        [⟨u.id, u.email, u.full_name, none, none, none, none⟩] }
  if u.email == "user1@example.com" then
    insert_seed_policies db1 u.id today endLife endHouse
  else db1

/-! ### The serverless function inventory

The repository's `supabase/functions` directory holds `create-agent` and
`onboard-client` (account provisioning through the admin API) and
`send-emi-reminders`; the pg_cron migration schedules daily HTTP calls to
`send-emi-reminders` only. -/

inductive EdgeFunction where
  | createAgentFn
  | onboardClientFn
  | sendEmiRemindersFn
deriving Repr, DecidableEq

def edgeFunctions : List EdgeFunction :=
  [.createAgentFn, .onboardClientFn, .sendEmiRemindersFn]

/-- Which functions provision accounts through `auth.admin.createUser`. -/
def isProvisioningFn : EdgeFunction → Bool
  | .createAgentFn => true
  | .onboardClientFn => true
  | .sendEmiRemindersFn => false

/-- Which functions the `cron.schedule` migration triggers on a schedule. -/
def isScheduledFn : EdgeFunction → Bool
  | .sendEmiRemindersFn => true
  | _ => false

/-! ### Concrete sample data used to instantiate the theorems -/

def demoDate : Date := ⟨2025, 1, 31⟩

def demoPolicyA : PolicyRow :=
  ⟨"pol-a", "user-1", "Life Protection Plus", "LIC India", "LIC-2024-001",
    "life", "active", some 1000000, some 5000, some 5000, some 1,
    "2025-01-01", "2045-01-01", none⟩

def demoPolicyB : PolicyRow :=
  ⟨"pol-b", "user-1", "Home Shield Pro", "HDFC ERGO", "HOME-2024-001",
    "house", "active", some 1000000, some 5000, some 3000, some 1,
    "2025-01-01", "2035-01-01", none⟩

def demoPolicyC : PolicyRow :=
  ⟨"pol-c", "user-2", "Health Cover", "Star Health", "H-2024-001",
    "health", "pending", some 500000, some 2000, some 2000, some 1,
    "2025-01-01", "2026-01-01", none⟩

def demoDb : List PolicyRow := [demoPolicyA, demoPolicyB, demoPolicyC]

def demoProfiles : String → Option Profile :=
  fun u => if u == "user-1" then some ⟨"u1@example.com", "User One"⟩ else none

def demoSendOk : String → Bool := fun _ => true

def demoEmail : ReminderEmail :=
  ⟨"user-1", "u1@example.com", 8000, 2, ["pol-a", "pol-b"]⟩

def demoPoliciesFK : List PolicyRow := [demoPolicyA]

def demoDupPayments : List PremiumPaymentRow :=
  [⟨"pay-1", "pol-a", "user-1", 5000, 3, 2025, none, none⟩,
   ⟨"pay-2", "pol-a", "user-1", 5000, 3, 2025, none, none⟩]

def demoPaymentViews : List PaymentView := [⟨"pay-1", "pol-a", 3, 2025⟩]

def envAllOk : ProvisionEnv :=
  { getUser := fun t =>
      if t == "admin-token" then some "admin-1"
      else if t == "agent-token" then some "agent-user-1" else none,
    hasRole := fun u r =>
      some ((u == "admin-1" && r == "admin") || (u == "agent-user-1" && r == "agent")),
    createUserResult := some "new-user-1",
    createErrorMsg := "",
    profileUpsertOk := true, roleInsertOk := true, agentInsertOk := true,
    assignInsertOk := true, freshId := "agent-row-1" }

def envNoUser : ProvisionEnv := { envAllOk with getUser := fun _ => none }

def envNotAdmin : ProvisionEnv := { envAllOk with hasRole := fun _ _ => some false }

def dbEmpty : DBState := ⟨[], [], [], [], []⟩

def dbWithAgent : DBState :=
  ⟨["agent-user-1"],
   [⟨"agent-user-1", "agent@example.com", some "Agent One", none, none, none, none⟩],
   [⟨"agent-user-1", "agent"⟩],
   [⟨"agent-1", "agent-user-1", "AG001", 10⟩],
   []⟩

def reqCreateAgentDemo : CreateAgentReq :=
  ⟨"POST", "admin-token", "newagent@example.com", "pw123456", "New Agent", "AG002", none⟩

def reqOnboardDemo : OnboardReq :=
  ⟨"POST", "agent-token", "client@example.com", "pw123456", "Client One", some 30, none, none⟩

def demoForm : PolicyFormData :=
  ⟨"Family Health Plan", "State Farm", "POL-2024-001", "health", "active",
    1000000, 60000, some 5000, some 5, "2025-01-01", "2026-01-01", ""⟩

def demoTriggerDB : TriggerDB := ⟨[], [], []⟩

def demoNewUser : NewUser := ⟨"new-1", "n@example.com", some "New Person"⟩

/-! ### Lemmas about the reminder pipeline -/

theorem mem_emiDueQuery {db : List PolicyRow} {day : Nat} {p : PolicyRow} :
    p ∈ emiDueQuery db day ↔
      p ∈ db ∧ p.policy_status = "active" ∧ p.monthly_emi ≠ none ∧
        p.emi_date = some (day : Int) := by
  simp only [emiDueQuery, List.mem_filter, Bool.and_eq_true, beq_iff_eq,
    Option.isSome_iff_ne_none]
  tauto

theorem mem_foldl_addUser (ps : List PolicyRow) (acc : List String) (x : String) :
    x ∈ ps.foldl addUser acc ↔ x ∈ acc ∨ ∃ p ∈ ps, p.user_id = x := by
  induction ps generalizing acc with
  | nil => simp
  | cons q qs ih =>
    rw [List.foldl_cons, ih]
    unfold addUser
    by_cases h : acc.contains q.user_id
    · have hmem : q.user_id ∈ acc := by simpa using h
      simp only [h, if_true, List.mem_cons]
      constructor
      · rintro (hx | ⟨p, hp, hpx⟩)
        · exact Or.inl hx
        · exact Or.inr ⟨p, Or.inr hp, hpx⟩
      · rintro (hx | ⟨p, rfl | hp, hpx⟩)
        · exact Or.inl hx
        · exact Or.inl (hpx ▸ hmem)
        · exact Or.inr ⟨p, hp, hpx⟩
    · simp only [h, if_false, List.mem_append, List.mem_cons, List.not_mem_nil,
        or_false, Bool.false_eq_true]
      constructor
      · rintro ((hx | rfl) | ⟨p, hp, hpx⟩)
        · exact Or.inl hx
        · exact Or.inr ⟨q, Or.inl rfl, rfl⟩
        · exact Or.inr ⟨p, Or.inr hp, hpx⟩
      · rintro (hx | ⟨p, rfl | hp, hpx⟩)
        · exact Or.inl (Or.inl hx)
        · exact Or.inl (Or.inr hpx.symm)
        · exact Or.inr ⟨p, hp, hpx⟩

theorem nodup_foldl_addUser (ps : List PolicyRow) (acc : List String)
    (h : acc.Nodup) : (ps.foldl addUser acc).Nodup := by
  induction ps generalizing acc with
  | nil => simpa
  | cons q qs ih =>
    rw [List.foldl_cons]
    apply ih
    unfold addUser
    by_cases hc : acc.contains q.user_id
    · have hmem : q.user_id ∈ acc := by simpa using hc
      simpa [hmem] using h
    · have hmem : q.user_id ∉ acc := by simpa using hc
      simp [hmem, List.nodup_append, h, List.disjoint_singleton]

theorem groupUserIds_nodup (ps : List PolicyRow) : (groupUserIds ps).Nodup :=
  nodup_foldl_addUser ps [] (by simp)

theorem mem_groupUserIds {ps : List PolicyRow} {x : String} :
    x ∈ groupUserIds ps ↔ ∃ p ∈ ps, p.user_id = x := by
  rw [groupUserIds, mem_foldl_addUser]; simp

theorem groupUserIds_length (ps : List PolicyRow) :
    (groupUserIds ps).length =
      ((ps.map (fun p => p.user_id)).toFinset).card := by
  rw [← List.toFinset_card_of_nodup (groupUserIds_nodup ps)]
  congr 1
  ext x
  simp [mem_groupUserIds, eq_comm]

theorem mem_policiesByUser {ps : List PolicyRow} {u : String} {ups : List PolicyRow} :
    (u, ups) ∈ policiesByUser ps ↔
      u ∈ groupUserIds ps ∧ ups = ps.filter (fun p => p.user_id == u) := by
  simp only [policiesByUser, List.mem_map, Prod.mk.injEq]
  constructor
  · rintro ⟨v, hv, rfl, rfl⟩
    exact ⟨hv, rfl⟩
  · rintro ⟨hu, rfl⟩
    exact ⟨u, hu, rfl, rfl⟩

theorem policiesByUser_map_fst (ps : List PolicyRow) :
    (policiesByUser ps).map Prod.fst = groupUserIds ps := by
  rw [policiesByUser, List.map_map]
  exact List.map_id _

theorem processUsers_count (pf : String → Option Profile) (so : String → Bool)
    (gs : List (String × List PolicyRow)) :
    (processUsers pf so gs).emailsSent + (processUsers pf so gs).emailsFailed =
      gs.length := by
  induction gs with
  | nil => rfl
  | cons g gs ih =>
    obtain ⟨u, ups⟩ := g
    cases hpf : pf u with
    | none =>
      simp only [processUsers, hpf, List.length_cons]
      omega
    | some pr =>
      by_cases hso : so u
      · simp only [processUsers, hpf, hso, if_true, List.length_cons]
        omega
      · simp only [processUsers, hpf, hso, if_false, Bool.false_eq_true, List.length_cons]
        omega

theorem processUsers_emails_sublist (pf : String → Option Profile) (so : String → Bool)
    (gs : List (String × List PolicyRow)) :
    ((processUsers pf so gs).emails.map (fun e => e.userId)).Sublist
      (gs.map Prod.fst) := by
  induction gs with
  | nil => simp [processUsers]
  | cons g gs ih =>
    obtain ⟨u, ups⟩ := g
    cases hpf : pf u with
    | none =>
      simp only [processUsers, hpf, List.map_cons]
      exact ih.cons u
    | some pr =>
      by_cases hso : so u
      · simp only [processUsers, hpf, hso, if_true, List.map_cons]
        exact ih.cons₂ u
      · simp only [processUsers, hpf, hso, if_false, Bool.false_eq_true, List.map_cons]
        exact ih.cons u

theorem mem_processUsers_emails {pf : String → Option Profile} {so : String → Bool}
    {gs : List (String × List PolicyRow)} {e : ReminderEmail}
    (h : e ∈ (processUsers pf so gs).emails) :
    ∃ ups, (e.userId, ups) ∈ gs ∧ e.totalDue = totalEMI ups ∧
      e.policyIds = ups.map (fun p => p.id) ∧
      ∃ pr, pf e.userId = some pr ∧ e.toAddr = pr.email := by
  induction gs with
  | nil => simp [processUsers] at h
  | cons g gs ih =>
    obtain ⟨u, ups⟩ := g
    cases hpf : pf u with
    | none =>
      simp only [processUsers, hpf] at h
      rcases ih h with ⟨ups', h1, h2, h3, h4⟩
      exact ⟨ups', List.mem_cons_of_mem _ h1, h2, h3, h4⟩
    | some pr =>
      by_cases hso : so u
      · simp only [processUsers, hpf, hso, if_true, List.mem_cons] at h
        rcases h with rfl | h
        · exact ⟨ups, List.mem_cons_self _ _, rfl, rfl, pr, hpf, rfl⟩
        · rcases ih h with ⟨ups', h1, h2, h3, h4⟩
          exact ⟨ups', List.mem_cons_of_mem _ h1, h2, h3, h4⟩
      · simp only [processUsers, hpf, hso, if_false, Bool.false_eq_true] at h
        rcases ih h with ⟨ups', h1, h2, h3, h4⟩
        exact ⟨ups', List.mem_cons_of_mem _ h1, h2, h3, h4⟩

/-! ### Claim theorems for send-emi-reminders -/

/-- C1: on every run of send-emi-reminders, a policy is selected for a
reminder iff its policy_status is active, its monthly_emi is non-null, and
its emi_date equals the day-of-month of the calendar day following the run
date; reminder emails are composed only from the selected policies. -/
theorem emi_reminder_selection (db : List PolicyRow) (profiles : String → Option Profile)
    (sendOk : String → Bool) (runDate : Date) :
    (∀ p : PolicyRow, p ∈ emiDueQuery db (tomorrowDay runDate) ↔
        p ∈ db ∧ p.policy_status = "active" ∧ p.monthly_emi ≠ none ∧
          p.emi_date = some ((nextDay runDate).day : Int)) ∧
    (∀ e ∈ (sendEmiReminders db profiles sendOk runDate).emails,
        ∀ pid ∈ e.policyIds,
          ∃ q ∈ emiDueQuery db (tomorrowDay runDate), q.id = pid) := by
  constructor
  · intro p
    exact mem_emiDueQuery
  · intro e he pid hpid
    simp only [sendEmiReminders] at he
    by_cases hemp : (emiDueQuery db (tomorrowDay runDate)).isEmpty
    · rw [if_pos hemp] at he
      simp at he
    · rw [if_neg hemp] at he
      rcases mem_processUsers_emails he with ⟨ups, hg, _, hids, _⟩
      rcases mem_policiesByUser.mp hg with ⟨_, rfl⟩
      rw [hids] at hpid
      rcases List.mem_map.mp hpid with ⟨q, hq, rfl⟩
      exact ⟨q, List.mem_of_mem_filter hq, rfl⟩

theorem emi_reminder_selection_witness :
    demoPolicyA ∈ emiDueQuery demoDb (tomorrowDay demoDate) :=
  ((emi_reminder_selection demoDb demoProfiles demoSendOk demoDate).1 demoPolicyA).mpr
    (by decide)

/-- C2: within a run, the selected policies are grouped by user_id, at most
one email is sent per user, and each email's Total Amount Due is the sum of
monthly_emi over exactly that user's selected policies. -/
theorem emi_reminder_one_email_per_user (db : List PolicyRow)
    (profiles : String → Option Profile) (sendOk : String → Bool) (runDate : Date) :
    ((sendEmiReminders db profiles sendOk runDate).emails.map
        (fun e => e.userId)).Nodup ∧
    ∀ e ∈ (sendEmiReminders db profiles sendOk runDate).emails,
      e.totalDue = totalEMI ((emiDueQuery db (tomorrowDay runDate)).filter
        (fun p => p.user_id == e.userId)) := by
  simp only [sendEmiReminders]
  by_cases hemp : (emiDueQuery db (tomorrowDay runDate)).isEmpty
  · rw [if_pos hemp]
    simp
  · rw [if_neg hemp]
    constructor
    · have hsub := processUsers_emails_sublist profiles sendOk
        (policiesByUser (emiDueQuery db (tomorrowDay runDate)))
      rw [policiesByUser_map_fst] at hsub
      exact (groupUserIds_nodup _).sublist hsub
    · intro e he
      rcases mem_processUsers_emails he with ⟨ups, hg, hdue, _, _⟩
      rcases mem_policiesByUser.mp hg with ⟨_, rfl⟩
      exact hdue

theorem emi_reminder_one_email_per_user_witness :
    demoEmail.totalDue = totalEMI ((emiDueQuery demoDb (tomorrowDay demoDate)).filter
      (fun p => p.user_id == demoEmail.userId)) :=
  (emi_reminder_one_email_per_user demoDb demoProfiles demoSendOk demoDate).2
    demoEmail (by decide)

/-- C10: when the initial policy query succeeds the response is 200; with
no match the body reports count 0, and otherwise emailsSent + emailsFailed
equals the number of distinct user_id values among the matched policies and
usersNotified equals emailsSent. -/
theorem emi_reminder_response_accounting (db : List PolicyRow)
    (profiles : String → Option Profile) (sendOk : String → Bool) (runDate : Date) :
    (sendEmiReminders db profiles sendOk runDate).status = 200 ∧
    (emiDueQuery db (tomorrowDay runDate) = [] →
      (sendEmiReminders db profiles sendOk runDate).response = .noReminders 0) ∧
    (emiDueQuery db (tomorrowDay runDate) ≠ [] →
      ∃ sent failed,
        (sendEmiReminders db profiles sendOk runDate).response =
          .processed (emiDueQuery db (tomorrowDay runDate)).length sent failed sent ∧
        sent + failed =
          (((emiDueQuery db (tomorrowDay runDate)).map
            (fun p => p.user_id)).toFinset).card) := by
  refine ⟨?_, ?_, ?_⟩
  · simp only [sendEmiReminders]
    by_cases hemp : (emiDueQuery db (tomorrowDay runDate)).isEmpty
    · rw [if_pos hemp]
    · rw [if_neg hemp]
  · intro hnil
    simp only [sendEmiReminders]
    rw [if_pos (List.isEmpty_iff.mpr hnil)]
  · intro hne
    have hemp : (emiDueQuery db (tomorrowDay runDate)).isEmpty = false := by
      cases h : (emiDueQuery db (tomorrowDay runDate)).isEmpty
      · rfl
      · exact absurd (List.isEmpty_iff.mp h) hne
    simp only [sendEmiReminders, hemp, Bool.false_eq_true, if_false]
    refine ⟨_, _, rfl, ?_⟩
    rw [processUsers_count]
    have hlen : (policiesByUser (emiDueQuery db (tomorrowDay runDate))).length
        = (groupUserIds (emiDueQuery db (tomorrowDay runDate))).length := by
      simp [policiesByUser]
    rw [hlen, groupUserIds_length]

theorem emi_reminder_response_accounting_witness :
    ∃ sent failed,
      (sendEmiReminders demoDb demoProfiles demoSendOk demoDate).response =
        .processed (emiDueQuery demoDb (tomorrowDay demoDate)).length sent failed sent ∧
      sent + failed =
        (((emiDueQuery demoDb (tomorrowDay demoDate)).map
          (fun p => p.user_id)).toFinset).card :=
  (emi_reminder_response_accounting demoDb demoProfiles demoSendOk demoDate).2.2
    (by decide)

/-! ### Claim theorems for the schema invariant and the function inventory -/

/-- C3 counterexample: a premium_payments state satisfying every constraint
the schema declares (primary key on id, foreign key on policy_id) in which
two payments share the same (policy_id, payment_month, payment_year), so
the schema's constraints do not guarantee the invariant. -/
theorem premium_payments_schema_allows_duplicates :
    premiumPaymentsConstraints demoDupPayments demoPoliciesFK ∧
    ¬ atMostOnePaymentPerMonthYear demoDupPayments := by
  constructor
  · exact ⟨by decide, by decide⟩
  · intro h
    have := h ⟨"pay-1", "pol-a", "user-1", 5000, 3, 2025, none, none⟩ (by decide)
      ⟨"pay-2", "pol-a", "user-1", 5000, 3, 2025, none, none⟩ (by decide) rfl rfl rfl
    simp at this

/-- C3 (amended): the at-most-one-payment-per (policy_id, payment_month,
payment_year) invariant is not guaranteed by the schema's uniqueness and
foreign-key constraints; it is enforced by custom application logic:
`handlePayPremium` refuses the insert exactly when `isPremiumPaidForMonth`
already finds a payment for that policy and month. -/
theorem premium_payment_duplicate_enforcement (pol : PolicyRow) (u : String)
    (m y : Int) (payments : List PaymentView) (pm tid : Option String) :
    (premiumPaymentsConstraints demoDupPayments demoPoliciesFK ∧
      ¬ atMostOnePaymentPerMonthYear demoDupPayments) ∧
    (isPremiumPaidForMonth payments pol.id m y = true →
      handlePayPremium (some pol) (some u) (some m) (some y) payments pm tid =
        .alreadyPaid) ∧
    (∀ row, handlePayPremium (some pol) (some u) (some m) (some y) payments pm tid =
        .insertPayment row → isPremiumPaidForMonth payments pol.id m y = false) := by
  refine ⟨premium_payments_schema_allows_duplicates, ?_, ?_⟩
  · intro hpaid
    simp [handlePayPremium, hpaid]
  · intro row hrow
    by_cases hpaid : isPremiumPaidForMonth payments pol.id m y
    · simp [handlePayPremium, hpaid] at hrow
    · simpa using hpaid

theorem premium_payment_duplicate_enforcement_witness :
    handlePayPremium (some demoPolicyA) (some "user-1") (some 3) (some 2025)
      demoPaymentViews none none = .alreadyPaid :=
  (premium_payment_duplicate_enforcement demoPolicyA "user-1" 3 2025
    demoPaymentViews none none).2.1 (by decide)

/-- C8 counterexample: the repository's function inventory has exactly two
privileged account-provisioning serverless functions, not three. -/
theorem edge_function_count_not_three :
    (edgeFunctions.filter isProvisioningFn).length = 2 ∧
    ¬ (edgeFunctions.filter isProvisioningFn).length = 3 := by decide

/-- C8 (amended): the system exposes exactly two serverless functions that
perform privileged account provisioning through the platform's admin API
(create-agent and onboard-client) in addition to the one scheduled due-date
email reminder function — three serverless functions in total. -/
theorem edge_function_inventory :
    edgeFunctions.filter isProvisioningFn = [.createAgentFn, .onboardClientFn] ∧
    edgeFunctions.filter isScheduledFn = [.sendEmiRemindersFn] ∧
    edgeFunctions.length = 3 ∧ edgeFunctions.Nodup := by decide

/-! ### Lemmas about the provisioning handlers -/

theorem filter_deleteRoles_append (rs : List RoleRow) (uid : String) (role : String) :
    ((deleteRolesFor rs uid ++ [(⟨uid, role⟩ : RoleRow)]).filter
        (fun r => r.user_id == uid)) = [(⟨uid, role⟩ : RoleRow)] := by
  rw [List.filter_append]
  have h1 : (deleteRolesFor rs uid).filter
      (fun r => r.user_id == uid) = [] := by
    rw [deleteRolesFor, List.filter_filter]
    apply List.filter_eq_nil_iff.mpr
    intro r _
    cases hbe : r.user_id == uid <;> simp [hbe]
  rw [h1]
  simp

theorem self_mem_upsertClientProfile (db : List ProfileRow) (row : ProfileRow) :
    row ∈ upsertClientProfile db row := by
  unfold upsertClientProfile
  split
  · next h =>
    rcases List.any_eq_true.mp h with ⟨r, hr, hid⟩
    exact List.mem_map.mpr ⟨r, hr, by simp [hid]⟩
  · simp

/-! ### Claim theorems for create-agent -/

/-- C4 counterexample: a create-agent request whose bearer token resolves
to no user at all (so in particular not to a user holding the admin role)
is answered 401, not 403. -/
theorem create_agent_nonresolving_token_401 :
    envNoUser.getUser reqCreateAgentDemo.token = none ∧
    (createAgent envNoUser dbEmpty reqCreateAgentDemo).status = 401 ∧
    ¬ (createAgent envNoUser dbEmpty reqCreateAgentDemo).status = 403 := by
  refine ⟨rfl, by decide, by decide⟩

/-- C4 (amended): for every POST create-agent request whose bearer token
resolves to a user that does not hold the admin role (or whose role check
errors), the function answers 403 with body error Forbidden, creates no
account and performs no database write.  (A token resolving to no user is
answered 401 instead.) -/
theorem create_agent_forbidden (env : ProvisionEnv) (db : DBState)
    (req : CreateAgentReq) (callerId : String)
    (hm : req.method = "POST") (ht : req.token ≠ "")
    (hu : env.getUser req.token = some callerId)
    (hr : env.hasRole callerId "admin" = none ∨
      env.hasRole callerId "admin" = some false) :
    (createAgent env db req).status = 403 ∧
    (createAgent env db req).body = .errMsg "Forbidden" ∧
    (createAgent env db req).db = db ∧
    (createAgent env db req).createdUserId = none := by
  have hm2 : (req.method != "POST") = false := by simp [hm]
  have ht2 : (req.token == "") = false := by
    simp only [beq_eq_false_iff_ne, ne_eq]
    exact ht
  rcases hr with hr | hr <;>
    simp [createAgent, hm2, ht2, hu, hr]

theorem create_agent_forbidden_witness :
    (createAgent envNotAdmin dbEmpty reqCreateAgentDemo).status = 403 ∧
    (createAgent envNotAdmin dbEmpty reqCreateAgentDemo).body = .errMsg "Forbidden" ∧
    (createAgent envNotAdmin dbEmpty reqCreateAgentDemo).db = dbEmpty ∧
    (createAgent envNotAdmin dbEmpty reqCreateAgentDemo).createdUserId = none :=
  create_agent_forbidden envNotAdmin dbEmpty reqCreateAgentDemo "admin-1"
    rfl (by decide) (by decide) (Or.inr rfl)

/-- C6: every successful create-agent request (status 200, success body)
leaves the created user with exactly one user_roles row, whose role is
agent (pre-existing roles for that user were deleted first), and an agents
row for the user carrying the request's agent_code and a commission_rate of
commissionRate when given, 10 otherwise. -/
theorem create_agent_success_state (env : ProvisionEnv) (db : DBState)
    (req : CreateAgentReq) (h : (createAgent env db req).status = 200) :
    (createAgent env db req).body = .success ∧
    ∃ uid, (createAgent env db req).createdUserId = some uid ∧
      ((createAgent env db req).db.user_roles.filter
        (fun r => r.user_id == uid)) = [(⟨uid, "agent"⟩ : RoleRow)] ∧
      ∃ a ∈ (createAgent env db req).db.agents,
        a.user_id = uid ∧ a.agent_code = req.agentCode ∧
        a.commission_rate = req.commissionRate.getD 10 := by
  by_cases hm : req.method != "POST"
  · simp [createAgent, hm] at h
  · by_cases ht : req.token == ""
    · simp [createAgent, hm, ht] at h
    · cases hu : env.getUser req.token with
      | none => simp [createAgent, hm, ht, hu] at h
      | some callerId =>
        cases hr : env.hasRole callerId "admin" with
        | none => simp [createAgent, hm, ht, hu, hr] at h
        | some b =>
          cases b with
          | false => simp [createAgent, hm, ht, hu, hr] at h
          | true =>
            by_cases hf : (req.email == "" || req.password == "" ||
                req.fullName == "" || req.agentCode == "")
            · simp [createAgent, hm, ht, hu, hr, hf] at h
            · cases hc : env.createUserResult with
              | none => simp [createAgent, hm, ht, hu, hr, hf, hc] at h
              | some userId =>
                by_cases hp : env.profileUpsertOk
                · by_cases hri : env.roleInsertOk
                  · by_cases hai : env.agentInsertOk
                    · simp only [createAgent, hm, ht, hu, hr, hf, hc, hp, hri, hai,
                        Bool.false_eq_true, if_false, if_true, Bool.not_true,
                        Bool.not_false]
                      refine ⟨trivial, userId, rfl,
                        filter_deleteRoles_append db.user_roles userId "agent", ?_⟩
                      exact ⟨⟨env.freshId, userId, req.agentCode,
                        req.commissionRate.getD 10⟩,
                        List.mem_append_right _ (List.mem_singleton.mpr rfl),
                        rfl, rfl, rfl⟩
                    · simp [createAgent, hm, ht, hu, hr, hf, hc, hp, hri, hai] at h
                  · simp [createAgent, hm, ht, hu, hr, hf, hc, hp, hri] at h
                · simp [createAgent, hm, ht, hu, hr, hf, hc, hp] at h

theorem create_agent_success_state_witness :
    (createAgent envAllOk dbEmpty reqCreateAgentDemo).body = .success ∧
    ∃ uid, (createAgent envAllOk dbEmpty reqCreateAgentDemo).createdUserId = some uid ∧
      ((createAgent envAllOk dbEmpty reqCreateAgentDemo).db.user_roles.filter
        (fun r => r.user_id == uid)) = [(⟨uid, "agent"⟩ : RoleRow)] ∧
      ∃ a ∈ (createAgent envAllOk dbEmpty reqCreateAgentDemo).db.agents,
        a.user_id = uid ∧ a.agent_code = reqCreateAgentDemo.agentCode ∧
        a.commission_rate = reqCreateAgentDemo.commissionRate.getD 10 :=
  create_agent_success_state envAllOk dbEmpty reqCreateAgentDemo (by decide)

/-! ### Claim theorem for onboard-client -/

/-- C5: every onboard-client response that is 200 with success true implies
the caller held the agent role and had an agents record, a new auth user
and profile were created with onboarded_by_agent set to that agent's id,
the new user's roles were replaced by the single role user, and an
agent_clients assignment linking the new client to the calling agent was
attempted. -/
theorem onboard_client_success_state (env : ProvisionEnv) (db : DBState)
    (req : OnboardReq) (h : (onboardClient env db req).status = 200) :
    ∃ callerId agentData userId,
      env.getUser req.token = some callerId ∧
      env.hasRole callerId "agent" = some true ∧
      db.agents.find? (fun a => a.user_id == callerId) = some agentData ∧
      (onboardClient env db req).createdUserId = some userId ∧
      (∃ msg, (onboardClient env db req).body =
        .successOnboard userId agentData.agent_code msg) ∧
      (onboardClient env db req).db.auth_users = db.auth_users ++ [userId] ∧
      (∃ p ∈ (onboardClient env db req).db.profiles,
        p.id = userId ∧ p.onboarded_by_agent = some agentData.id) ∧
      ((onboardClient env db req).db.user_roles.filter
        (fun r => r.user_id == userId)) = [(⟨userId, "user"⟩ : RoleRow)] ∧
      (onboardClient env db req).assignAttempted = true ∧
      (env.assignInsertOk = true →
        (⟨agentData.id, userId⟩ : AgentClientRow) ∈
          (onboardClient env db req).db.agent_clients) := by
  by_cases hm : req.method != "POST"
  · simp [onboardClient, hm] at h
  · by_cases ht : req.token == ""
    · simp [onboardClient, hm, ht] at h
    · cases hu : env.getUser req.token with
      | none => simp [onboardClient, hm, ht, hu] at h
      | some callerId =>
        cases hr : env.hasRole callerId "agent" with
        | none => simp [onboardClient, hm, ht, hu, hr] at h
        | some b =>
          cases b with
          | false => simp [onboardClient, hm, ht, hu, hr] at h
          | true =>
            cases hfind : db.agents.find? (fun a => a.user_id == callerId) with
            | none => simp [onboardClient, hm, ht, hu, hr, hfind] at h
            | some agentData =>
              by_cases hf : (req.email == "" || req.password == "" ||
                  req.fullName == "")
              · simp [onboardClient, hm, ht, hu, hr, hfind, hf] at h
              · cases hc : env.createUserResult with
                | none => simp [onboardClient, hm, ht, hu, hr, hfind, hf, hc] at h
                | some userId =>
                  by_cases hp : env.profileUpsertOk
                  · by_cases hri : env.roleInsertOk
                    · by_cases hassign : env.assignInsertOk
                      · refine ⟨callerId, agentData, userId, rfl, hr, hfind,
                          ?_, ?_, ?_, ?_, ?_, ?_, ?_⟩
                        · simp only [onboardClient, hm, ht, hu, hr, hfind, hf, hc,
                            hp, hri, hassign, Bool.false_eq_true, if_false, if_true,
                            Bool.not_true, Bool.not_false]
                        · simp only [onboardClient, hm, ht, hu, hr, hfind, hf, hc,
                            hp, hri, hassign, Bool.false_eq_true, if_false, if_true,
                            Bool.not_true, Bool.not_false]
                          exact ⟨_, rfl⟩
                        · simp only [onboardClient, hm, ht, hu, hr, hfind, hf, hc,
                            hp, hri, hassign, Bool.false_eq_true, if_false, if_true,
                            Bool.not_true, Bool.not_false]
                        · simp only [onboardClient, hm, ht, hu, hr, hfind, hf, hc,
                            hp, hri, hassign, Bool.false_eq_true, if_false, if_true,
                            Bool.not_true, Bool.not_false]
                          exact ⟨⟨userId, req.email, some req.fullName, req.age,
                            req.gender, req.dateOfBirth, some agentData.id⟩,
                            self_mem_upsertClientProfile _ _, rfl, rfl⟩
                        · simp only [onboardClient, hm, ht, hu, hr, hfind, hf, hc,
                            hp, hri, hassign, Bool.false_eq_true, if_false, if_true,
                            Bool.not_true, Bool.not_false]
                          exact filter_deleteRoles_append db.user_roles userId "user"
                        · simp only [onboardClient, hm, ht, hu, hr, hfind, hf, hc,
                            hp, hri, hassign, Bool.false_eq_true, if_false, if_true,
                            Bool.not_true, Bool.not_false]
                        · intro _
                          simp only [onboardClient, hm, ht, hu, hr, hfind, hf, hc,
                            hp, hri, hassign, Bool.false_eq_true, if_false, if_true,
                            Bool.not_true, Bool.not_false]
                          exact List.mem_append_right _ (List.mem_singleton.mpr rfl)
                      · refine ⟨callerId, agentData, userId, rfl, hr, hfind,
                          ?_, ?_, ?_, ?_, ?_, ?_, fun hcontra => absurd hcontra hassign⟩
                        · simp only [onboardClient, hm, ht, hu, hr, hfind, hf, hc,
                            hp, hri, hassign, Bool.false_eq_true, if_false, if_true,
                            Bool.not_true, Bool.not_false]
                        · simp only [onboardClient, hm, ht, hu, hr, hfind, hf, hc,
                            hp, hri, hassign, Bool.false_eq_true, if_false, if_true,
                            Bool.not_true, Bool.not_false]
                          exact ⟨_, rfl⟩
                        · simp only [onboardClient, hm, ht, hu, hr, hfind, hf, hc,
                            hp, hri, hassign, Bool.false_eq_true, if_false, if_true,
                            Bool.not_true, Bool.not_false]
                        · simp only [onboardClient, hm, ht, hu, hr, hfind, hf, hc,
                            hp, hri, hassign, Bool.false_eq_true, if_false, if_true,
                            Bool.not_true, Bool.not_false]
                          exact ⟨⟨userId, req.email, some req.fullName, req.age,
                            req.gender, req.dateOfBirth, some agentData.id⟩,
                            self_mem_upsertClientProfile _ _, rfl, rfl⟩
                        · simp only [onboardClient, hm, ht, hu, hr, hfind, hf, hc,
                            hp, hri, hassign, Bool.false_eq_true, if_false, if_true,
                            Bool.not_true, Bool.not_false]
                          exact filter_deleteRoles_append db.user_roles userId "user"
                        · simp only [onboardClient, hm, ht, hu, hr, hfind, hf, hc,
                            hp, hri, hassign, Bool.false_eq_true, if_false, if_true,
                            Bool.not_true, Bool.not_false]
                    · simp [onboardClient, hm, ht, hu, hr, hfind, hf, hc, hp, hri] at h
                  · simp [onboardClient, hm, ht, hu, hr, hfind, hf, hc, hp] at h

theorem onboard_client_success_state_witness :
    ∃ callerId agentData userId,
      envAllOk.getUser reqOnboardDemo.token = some callerId ∧
      envAllOk.hasRole callerId "agent" = some true ∧
      dbWithAgent.agents.find? (fun a => a.user_id == callerId) = some agentData ∧
      (onboardClient envAllOk dbWithAgent reqOnboardDemo).createdUserId = some userId ∧
      (∃ msg, (onboardClient envAllOk dbWithAgent reqOnboardDemo).body =
        .successOnboard userId agentData.agent_code msg) ∧
      (onboardClient envAllOk dbWithAgent reqOnboardDemo).db.auth_users =
        dbWithAgent.auth_users ++ [userId] ∧
      (∃ p ∈ (onboardClient envAllOk dbWithAgent reqOnboardDemo).db.profiles,
        p.id = userId ∧ p.onboarded_by_agent = some agentData.id) ∧
      ((onboardClient envAllOk dbWithAgent reqOnboardDemo).db.user_roles.filter
        (fun r => r.user_id == userId)) = [(⟨userId, "user"⟩ : RoleRow)] ∧
      (onboardClient envAllOk dbWithAgent reqOnboardDemo).assignAttempted = true ∧
      (envAllOk.assignInsertOk = true →
        (⟨agentData.id, userId⟩ : AgentClientRow) ∈
          (onboardClient envAllOk dbWithAgent reqOnboardDemo).db.agent_clients) :=
  onboard_client_success_state envAllOk dbWithAgent reqOnboardDemo (by decide)

/-! ### Claim theorem for AddPolicy validation -/

/-- C7: with a logged-in user, AddPolicy issues a policy insert iff the
submitted form passes the zod schema; any inserted form has insurance_type
among life, health, vehicle, house and, when emi_date is provided, an
integer between 1 and 31; on validation failure an error is shown and no
insert is issued. -/
theorem add_policy_validation (uid : String) (f : PolicyFormData) :
    ((∃ row, handleSubmitAddPolicy (some uid) f = .insertPolicy row) ↔
      policySchemaCheck f = true) ∧
    ((∃ row, handleSubmitAddPolicy (some uid) f = .insertPolicy row) →
      (f.insurance_type = "life" ∨ f.insurance_type = "health" ∨
        f.insurance_type = "vehicle" ∨ f.insurance_type = "house") ∧
      (∀ d, f.emi_date = some d → 1 ≤ d ∧ d ≤ 31)) ∧
    (policySchemaCheck f = false →
      handleSubmitAddPolicy (some uid) f = .validationError) := by
  have hiff : (∃ row, handleSubmitAddPolicy (some uid) f = .insertPolicy row) ↔
      policySchemaCheck f = true := by
    constructor
    · rintro ⟨row, hrow⟩
      by_cases hv : policySchemaCheck f
      · exact hv
      · simp [handleSubmitAddPolicy, hv] at hrow
    · intro hv
      refine ⟨⟨uid, f.policy_name, f.policy_provider, f.policy_number,
        f.insurance_type, f.policy_status, f.coverage_amount, f.premium_amount,
        f.monthly_emi, f.emi_date, f.start_date, f.end_date,
        if f.description == "" then none else some f.description⟩, ?_⟩
      simp [handleSubmitAddPolicy, hv]
  refine ⟨hiff, ?_, ?_⟩
  · intro hrow
    have hv := hiff.mp hrow
    rw [policySchemaCheck] at hv
    simp only [Bool.and_eq_true, Bool.or_eq_true, decide_eq_true_eq,
      beq_iff_eq] at hv
    constructor
    · tauto
    · intro d hd
      have hemi := hv.1.1.1.2
      rw [hd] at hemi
      simp only [Bool.and_eq_true, decide_eq_true_eq] at hemi
      exact hemi
  · intro hv
    simp [handleSubmitAddPolicy, hv]

theorem add_policy_validation_witness :
    ∃ row, handleSubmitAddPolicy (some "user-1") demoForm = .insertPolicy row :=
  (add_policy_validation "user-1" demoForm).1.mpr (by decide)

/-! ### Claim theorem for useUserRole and handle_new_user -/

/-- C9: for an authenticated user the useUserRole hook never yields a null
role once loading completes; a missing user_roles row or a failed query
defaults the role to user (so isAdmin and isAgent are false); and the final
handle_new_user trigger inserts a profile row for the new user but no
user_roles row. -/
theorem user_role_defaults (uid : String) (q : Except Unit (Option String))
    (db : TriggerDB) (u : NewUser) (today endLife endHouse : String) :
    fetchRoleResult (some uid) q ≠ none ∧
    ((q = .error () ∨ q = .ok none) →
      fetchRoleResult (some uid) q = some "user" ∧
      roleIsAdmin (fetchRoleResult (some uid) q) = false ∧
      roleIsAgent (fetchRoleResult (some uid) q) = false) ∧
    (handle_new_user db u today endLife endHouse).user_roles = db.user_roles ∧
    (∃ p ∈ (handle_new_user db u today endLife endHouse).profiles,
      p.id = u.id) := by
  refine ⟨?_, ?_, ?_, ?_⟩
  · cases q with
    | error e => simp [fetchRoleResult]
    | ok d => cases d <;> simp [fetchRoleResult]
  · rintro (rfl | rfl) <;>
      simp [fetchRoleResult, roleIsAdmin, roleIsAgent]
  · rw [handle_new_user]
    split
    · rfl
    · rfl
  · rw [handle_new_user]
    split
    · exact ⟨⟨u.id, u.email, u.full_name, none, none, none, none⟩,
        List.mem_append_right _ (List.mem_singleton.mpr rfl), rfl⟩
    · exact ⟨⟨u.id, u.email, u.full_name, none, none, none, none⟩,
        List.mem_append_right _ (List.mem_singleton.mpr rfl), rfl⟩

theorem user_role_defaults_witness :
    fetchRoleResult (some "user-1") (Except.ok none) = some "user" ∧
    roleIsAdmin (fetchRoleResult (some "user-1") (Except.ok none)) = false ∧
    roleIsAgent (fetchRoleResult (some "user-1") (Except.ok none)) = false :=
  (user_role_defaults "user-1" (Except.ok none) demoTriggerDB demoNewUser
    "" "" "").2.1 (Or.inr rfl)

end InsurTrack
